import Mathlib

/-!
Shallow embedding of the IS403-GroupProject news-site server.

The repository contains several near-duplicate Express/Knex iterations.
We embed the two variants the claims reference:

* the "simplified" variant (first half of `src/index.js`): case-insensitive
  `LOWER(username) = LOWER(?)` lookups, password minimum 6, no `person`
  table and no transaction around signup;
* the "full" variant (second half of `src/index.js`): exact-match
  `.where({ username })` lookups, password minimum 8, `users` + `person`
  rows created in one transaction, admin CRUD routes, and (in
  `src/unnamed/part_001`) the saved-articles routes over `news_posts`.

Database tables are lists of rows; a Knex `.first()` is `List.find?`, a
`.del()` is `List.filter`, an `.update` is `List.map` with an
if-then-else, an `.insert` appends.  A `db.transaction` whose callback
throws is modelled by returning the unchanged database (rollback), so a
handler is a pure function from the database and the request to the
response and the resulting database.  `bcrypt.hash` and `bcrypt.compare`
are impure in the source (random salt), so handlers take them as function
parameters.  JavaScript request-body fields are `Option String` (`none`
is an absent field) and JS string truthiness (`undefined` and `""` are
falsy) is the `truthy` function below.
-/

namespace NewsApp

/-- SQL `LOWER`, used by the simplified variant's
`whereRaw('LOWER(username) = LOWER(?)')`: lowercase every character.
(Char-list implementation so the kernel can evaluate it.) -/
def sqlLower (s : String) : String := ⟨s.data.map Char.toLower⟩

/-- JS `String.prototype.trim`: strip leading and trailing whitespace.
(Char-list implementation so the kernel can evaluate it.) -/
def jsTrim (s : String) : String :=
  ⟨((s.data.dropWhile Char.isWhitespace).reverse.dropWhile
      Char.isWhitespace).reverse⟩

/-- JS truthiness of an optional string body field: `undefined` and the
empty string are falsy, every other string is truthy. -/
def truthy (o : Option String) : Bool := !((o.getD "") == "")

/-- JS truthiness of the session's numeric `userId`: `undefined` and `0`
are falsy. -/
def truthyId (o : Option Nat) : Bool := !((o.getD 0) == 0)

/-- JS `field || null` normalisation used by the insert/update handlers:
a missing or empty string becomes SQL NULL, anything else is kept. -/
def orNull (o : Option String) : Option String :=
  if truthy o then o else none

/-- JS `state ? state.trim() : null` used by the signup handlers. -/
def normTrim (o : Option String) : Option String :=
  if truthy o then some (jsTrim (o.getD "")) else none

/-- Row of the `users` table: account id, username, stored bcrypt hash,
admin flag. -/
structure Account where
  user_id : Nat
  username : String
  password : String
  is_admin : Bool
deriving Repr, DecidableEq

/-- Row of the `person` table: profile id, owning account id, and the
optional profile attributes. -/
structure Person where
  person_id : Nat
  user_id : Nat
  first_name : Option String
  last_name : Option String
  city : Option String
  state : Option String
  country : Option String
  preference_one : Option String
  preference_two : Option String
  preference_three : Option String
deriving Repr, DecidableEq

/-- Row of the `news_posts` table: saved article for an account. -/
structure NewsPost where
  user_id : Nat
  title : String
  url : String
deriving Repr, DecidableEq

/-- The relational state touched by the auth and admin routes. -/
structure DB where
  users : List Account
  person : List Person
deriving Repr, DecidableEq

/-- Server-side session state: bound account id, username, cached admin
flag. -/
structure Session where
  userId : Option Nat
  username : Option String
  isAdmin : Bool
deriving Repr, DecidableEq

/-- Knex `trx('users').where({ user_id: uid }).first()`. -/
def findUserById (users : List Account) (uid : Nat) : Option Account :=
  users.find? (fun u => u.user_id == uid)

/-- Knex `trx('users').where({ username }).first()` — exact match. -/
def findUserByName (users : List Account) (uname : String) : Option Account :=
  users.find? (fun u => u.username == uname)

/-- Knex `whereRaw('LOWER(username) = LOWER(?)').first()` used by the
simplified variant — case-insensitive match. -/
def findUserCI (users : List Account) (uname : String) : Option Account :=
  users.find? (fun u => sqlLower u.username == sqlLower uname)

/-- Knex `db('person').where({ person_id: pid }).first()`. -/
def findPersonById (person : List Person) (pid : Nat) : Option Person :=
  person.find? (fun p => p.person_id == pid)

/-- Result of the `requireAdmin` middleware (src/index.js:257-280).
`pass` records the (possibly refreshed) session and whether the
Credential Store was queried on this request. -/
inductive GuardResult
  | redirectLogin
  | pass (sess : Session) (queriedStore : Bool)
  | forbidden (status : Nat)
deriving Repr, DecidableEq

/-- `requireAdmin` middleware (src/index.js:257-280): redirect to login
if the session has no bound `userId`; pass immediately on a cached true
admin flag; otherwise query `users.is_admin` for the session's account,
cache-and-pass when true, 403 Forbidden otherwise. -/
def requireAdmin (users : List Account) (sess : Session) : GuardResult :=
  if !truthyId sess.userId then
    .redirectLogin
  else if sess.isAdmin then
    .pass sess false
  else
    match findUserById users (sess.userId.getD 0) with
    | some u =>
        if u.is_admin then .pass { sess with isAdmin := true } true
        else .forbidden 403
    | none => .forbidden 403

/-- Response of the full variant's POST /login (src/index.js:321-359):
either a re-render of the login form with a status, an error message and
the echoed username, or a redirect that establishes a session. -/
inductive LoginRes
  | render (status : Nat) (error : String) (valUsername : String)
  | redirect (path : String) (sess : Session)
deriving Repr, DecidableEq

/-- POST /login of the full variant (src/index.js:321-359): exact-match
username lookup, then bcrypt comparison; unknown username and wrong
password both render status 401 with the same generic message. -/
def loginFull (compare : String → String → Bool) (users : List Account)
    (busername bpassword : Option String) : LoginRes :=
  if !truthy busername || !truthy bpassword then
    .render 400 "Please provide both username and password." (busername.getD "")
  else
    let username := busername.getD ""
    let password := bpassword.getD ""
    match findUserByName users username with
    | none => .render 401 "Invalid username or password." username
    | some user =>
        if compare password user.password then
          .redirect "/"
            { userId := some user.user_id, username := some user.username,
              isAdmin := user.is_admin }
        else .render 401 "Invalid username or password." username

/-- Response of the simplified variant's POST /login and POST /signup
(src/index.js:82-169): a redirect carrying a one-shot flash error, or a
redirect home that establishes a session. -/
inductive FlashRes
  | redirectWithFlash (path : String) (flashError : String)
  | redirectHome (sess : Session)
deriving Repr, DecidableEq

/-- POST /login of the simplified variant (src/index.js:82-117): the
username is trimmed and looked up case-insensitively via
`LOWER(username) = LOWER(?)`. -/
def loginSimple (compare : String → String → Bool) (users : List Account)
    (busername bpassword : Option String) : FlashRes :=
  let username := jsTrim (busername.getD "")
  let password := bpassword.getD ""
  if username == "" || password == "" then
    .redirectWithFlash "/login" "Please provide both username and password."
  else
    match findUserCI users username with
    | none => .redirectWithFlash "/login" "Invalid username or password."
    | some user =>
        if compare password user.password then
          .redirectHome
            { userId := some user.user_id, username := some user.username,
              isAdmin := false }
        else .redirectWithFlash "/login" "Invalid username or password."

/-- Request body of the full variant's POST /signup. -/
structure SignupBody where
  username : Option String
  password : Option String
  confirm_password : Option String
  first_name : Option String
  last_name : Option String
  city : Option String
  state : Option String
  country : Option String
deriving Repr, DecidableEq

/-- Response of the full variant's POST /signup. -/
inductive SignupRes
  | validationError (status : Nat) (msg : String)
  | duplicateError (status : Nat) (msg : String)
  | success (sess : Session)
deriving Repr, DecidableEq

/-- POST /signup of the full variant (src/index.js:378-478): validation,
then one transaction that does an exact-match duplicate lookup and, when
it finds nothing, inserts the `users` row and its `person` row; a
`DUPLICATE_USER` throw rolls the transaction back, so the database is
returned unchanged on every non-success path. -/
def signupFull (hash : String → String) (db : DB)
    (nextUserId nextPersonId : Nat) (body : SignupBody) : SignupRes × DB :=
  if !truthy body.username || !truthy body.password then
    (.validationError 400 "Username and password are required.", db)
  else if !(body.password == body.confirm_password) then
    (.validationError 400 "Passwords do not match.", db)
  else if (body.password.getD "").length < 8 then
    (.validationError 400 "Password must be at least 8 characters.", db)
  else
    let username := body.username.getD ""
    match findUserByName db.users username with
    | some _ =>
        (.duplicateError 409 "An account with that username already exists.", db)
    | none =>
        let newUser : Account :=
          { user_id := nextUserId, username := username,
            password := hash (body.password.getD ""), is_admin := false }
        let newPerson : Person :=
          { person_id := nextPersonId, user_id := nextUserId,
            first_name := orNull body.first_name,
            last_name := orNull body.last_name,
            city := orNull body.city,
            state := normTrim body.state,
            country := normTrim body.country,
            preference_one := none, preference_two := none,
            preference_three := none }
        (.success
            { userId := some nextUserId, username := some username,
              isAdmin := false },
          { db with users := db.users ++ [newUser],
                    person := db.person ++ [newPerson] })

/-- POST /signup of the simplified variant (src/index.js:120-169): the
username is trimmed, the password minimum is 6, the case-insensitive
duplicate lookup runs outside any transaction, and only a `users` row is
inserted (there is no `person` table in this variant). -/
def signupSimple (hash : String → String) (users : List Account)
    (nextUserId : Nat) (busername bpassword bconfirm : Option String) :
    FlashRes × List Account :=
  let username := jsTrim (busername.getD "")
  let password := bpassword.getD ""
  let confirmPassword := bconfirm.getD ""
  if username == "" || password == "" then
    (.redirectWithFlash "/signup" "Username and password are required.", users)
  else if !(password == confirmPassword) then
    (.redirectWithFlash "/signup" "Passwords do not match.", users)
  else if password.length < 6 then
    (.redirectWithFlash "/signup" "Password must be at least 6 characters long.", users)
  else
    match findUserCI users username with
    | some _ => (.redirectWithFlash "/signup" "That username is already taken.", users)
    | none =>
        let newUser : Account :=
          { user_id := nextUserId, username := username,
            password := hash password, is_admin := false }
        (.redirectHome
            { userId := some nextUserId, username := some username,
              isAdmin := false },
          users ++ [newUser])

/-- Request body of POST /admin/users/:id (the admin update form). -/
structure UpdateBody where
  username : Option String
  password : Option String
  confirm_password : Option String
  first_name : Option String
  last_name : Option String
  city : Option String
  state : Option String
  country : Option String
  preference_one : Option String
  preference_two : Option String
  preference_three : Option String
deriving Repr, DecidableEq

/-- Response of POST /admin/users/:id: `renderWithError` re-renders the
form with status 400 (used for validation and duplicate errors alike),
`NOT_FOUND` and success both redirect to the user list. -/
inductive UpdateRes
  | validationError (status : Nat) (msg : String)
  | notFoundRedirect (path : String)
  | duplicateError (status : Nat) (msg : String)
  | successRedirect (path : String)
deriving Repr, DecidableEq

/-- The duplicate lookup of the admin update
(`trx('users').where({ username }).whereNot({ user_id: existing.user_id })`,
src/index.js:735-738).  `existing.user_id` comes from a left join and is
SQL NULL when the person row has no matching users row; Knex renders
`whereNot({ user_id: null })` as `not user_id is null`, which every row of
our model satisfies. -/
def updateDupCheck (users : List Account) (uname : String)
    (exUid : Option Nat) : Bool :=
  match exUid with
  | some uid => users.any (fun u => u.username == uname && !(u.user_id == uid))
  | none => users.any (fun u => u.username == uname)

/-- The `users` row update of the admin update (src/index.js:743-748):
the username is always overwritten; the password hash is overwritten
only when a truthy new password was submitted. -/
def applyUserUpdate (hash : String → String) (body : UpdateBody)
    (u : Account) : Account :=
  { u with
      username := body.username.getD "",
      password :=
        if truthy body.password then hash (body.password.getD "")
        else u.password }

/-- The `person` row update of the admin update (src/index.js:750-761):
every profile column is overwritten with `field || null`. -/
def applyPersonUpdate (body : UpdateBody) (p : Person) : Person :=
  { p with
      first_name := orNull body.first_name,
      last_name := orNull body.last_name,
      city := orNull body.city,
      state := orNull body.state,
      country := orNull body.country,
      preference_one := orNull body.preference_one,
      preference_two := orNull body.preference_two,
      preference_three := orNull body.preference_three }

/-- POST /admin/users/:id (src/index.js:677-775): validate, then in one
transaction resolve the person row (left-joined to `users`), reject a
username held by a different account, update the `users` row and the
`person` row.  `NOT_FOUND` and `DUPLICATE_USER` throws roll the
transaction back, so those paths return the database unchanged. -/
def adminUpdate (hash : String → String) (db : DB) (pid : Nat)
    (body : UpdateBody) : UpdateRes × DB :=
  if !truthy body.username then
    (.validationError 400 "Username is required.", db)
  else if truthy body.password && decide ((body.password.getD "").length < 8) then
    (.validationError 400 "Password must be at least 8 characters.", db)
  else if truthy body.password && !(body.password == body.confirm_password) then
    (.validationError 400 "Passwords do not match.", db)
  else
    match findPersonById db.person pid with
    | none => (.notFoundRedirect "/admin/users", db)
    | some pRow =>
        let exUid : Option Nat :=
          (findUserById db.users pRow.user_id).map (fun u => u.user_id)
        if updateDupCheck db.users (body.username.getD "") exUid then
          (.duplicateError 400 "That username is already taken.", db)
        else
          let users' := db.users.map (fun u =>
            if (match exUid with
                | some uid => u.user_id == uid
                | none => false) then
              applyUserUpdate hash body u
            else u)
          let person' := db.person.map (fun p =>
            if p.person_id == pid then applyPersonUpdate body p else p)
          (.successRedirect "/admin/users",
            { db with users := users', person := person' })

/-- POST /admin/users/:id/delete (src/index.js:777-796): one transaction
resolves the person row, deletes it, then deletes its `users` row; a
`NOT_FOUND` throw is swallowed by the catch, which issues the same
redirect, so an unresolved id is a silent no-op.  The response is the
redirect path in every case. -/
def adminDelete (db : DB) (pid : Nat) : String × DB :=
  match findPersonById db.person pid with
  | none => ("/admin/users", db)
  | some pRow =>
      ("/admin/users",
        { db with
            person := db.person.filter (fun p => !(p.person_id == pid)),
            users := db.users.filter (fun u => !(u.user_id == pRow.user_id)) })

/-- JSON response of the saved-article routes: HTTP status plus the
`{ success, message }` body. -/
structure JsonRes where
  status : Nat
  success : Bool
  message : String
deriving Repr, DecidableEq

/-- POST /save-article (src/unnamed/part_001:285-323): 401 without a
session account, 400 on a missing title or url, 409 when a
(user_id, url) row already exists — checked before the insert — and
otherwise insert the row and answer success. -/
def saveArticle (posts : List NewsPost) (sessUserId : Option Nat)
    (btitle burl : Option String) : JsonRes × List NewsPost :=
  if !truthyId sessUserId then
    ({ status := 401, success := false,
       message := "Please log in to save articles" }, posts)
  else if !truthy btitle || !truthy burl then
    ({ status := 400, success := false,
       message := "Title and URL are required" }, posts)
  else
    let uid := sessUserId.getD 0
    let url := burl.getD ""
    match posts.find? (fun r => r.user_id == uid && r.url == url) with
    | some _ =>
        ({ status := 409, success := false,
           message := "Article already saved" }, posts)
    | none =>
        ({ status := 200, success := true,
           message := "Article saved successfully" },
          posts ++ [{ user_id := uid, title := btitle.getD "", url := url }])

/-- DELETE /unsave-article (src/unnamed/part_001:326-353): 401 without a
session account, 400 on a missing url, then delete every
(user_id, url) row; 404 when nothing was deleted. -/
def unsaveArticle (posts : List NewsPost) (sessUserId : Option Nat)
    (burl : Option String) : JsonRes × List NewsPost :=
  if !truthyId sessUserId then
    ({ status := 401, success := false,
       message := "Please log in to unsave articles" }, posts)
  else if !truthy burl then
    ({ status := 400, success := false, message := "URL is required" }, posts)
  else
    let uid := sessUserId.getD 0
    let url := burl.getD ""
    let remaining := posts.filter (fun r => !(r.user_id == uid && r.url == url))
    if remaining.length == posts.length then
      ({ status := 404, success := false, message := "Article not found" }, posts)
    else
      ({ status := 200, success := true,
         message := "Article removed successfully" }, remaining)

/-! ### Concrete data for witnesses and counterexamples -/

/-- Deterministic stand-in for `bcrypt.hash(·, 10)` used when a witness
needs a concrete hashing function. -/
def demoHash (p : String) : String := "hash:" ++ p

/-- Deterministic stand-in for `bcrypt.compare` matching `demoHash`. -/
def demoCompare (p h : String) : Bool := h == "hash:" ++ p

/-- A registered account named "Alice" (mixed case on purpose). -/
def aliceAcct : Account :=
  { user_id := 1, username := "Alice", password := "hash:pw", is_admin := false }

/-- A second registered account. -/
def bobAcct : Account :=
  { user_id := 2, username := "bob", password := "hash:bb", is_admin := false }

/-- An administrator account. -/
def rootAcct : Account :=
  { user_id := 7, username := "root", password := "hash:rr", is_admin := true }

/-- Profile row owned by `aliceAcct`. -/
def alicePerson : Person :=
  { person_id := 10, user_id := 1, first_name := some "Alice",
    last_name := some "Smith", city := some "Provo", state := some "UT",
    country := some "USA", preference_one := some "tech",
    preference_two := none, preference_three := none }

/-- Profile row owned by `bobAcct`. -/
def bobPerson : Person :=
  { person_id := 11, user_id := 2, first_name := some "Bob",
    last_name := none, city := none, state := none, country := none,
    preference_one := none, preference_two := none, preference_three := none }

/-- A two-account database used by several witnesses. -/
def dbTwo : DB := { users := [aliceAcct, bobAcct], person := [alicePerson, bobPerson] }

/-! ### Helper lemmas -/

/-- `sqlLower` sends only the empty string to the empty string. -/
theorem sqlLower_eq_empty {s : String} : sqlLower s = "" ↔ s = "" := by
  constructor
  · intro hs
    cases s with
    | mk l =>
      cases l with
      | nil => rfl
      | cons c t => exact absurd (congrArg String.data hs) (by simp [sqlLower])
  · intro hs
    rw [hs]
    rfl

/-- Updating exactly the rows a predicate selects, with an update that
preserves the predicate, commutes with `find?` for that predicate. -/
theorem find?_map_ite {α : Type} (k : α → Bool) (g : α → α)
    (hg : ∀ a, k (g a) = k a) :
    ∀ l : List α,
      (l.map (fun a => if k a then g a else a)).find? k = (l.find? k).map g := by
  intro l
  induction l with
  | nil => rfl
  | cons a t ih =>
    by_cases hk : k a = true
    · rw [List.map_cons, if_pos hk, List.find?_cons_of_pos _ (by rw [hg, hk]),
        List.find?_cons_of_pos _ hk]
      rfl
    · rw [List.map_cons, if_neg hk, List.find?_cons_of_neg _ hk,
        List.find?_cons_of_neg _ hk, ih]

/-- A projection every row update preserves is unchanged across the
row-wise update. -/
theorem map_proj_ite {α β : Type} (k : α → Bool) (g : α → α) (f : α → β)
    (hf : ∀ a, f (g a) = f a) :
    ∀ l : List α,
      (l.map (fun a => if k a then g a else a)).map f = l.map f := by
  intro l
  induction l with
  | nil => rfl
  | cons a t ih =>
    rw [List.map_cons, List.map_cons, List.map_cons, ih]
    by_cases hk : k a = true
    · rw [if_pos hk, hf]
    · rw [if_neg hk]

/-- After deleting every row a predicate selects, `find?` for that
predicate comes up empty. -/
theorem find?_filter_not {α : Type} (k : α → Bool) (l : List α) :
    (l.filter (fun a => !(k a))).find? k = none := by
  rw [List.find?_eq_none]
  intro x hx
  simpa using (List.mem_filter.mp hx).2

/-! ### Claim theorems -/

/-- Claim C2: `requireAdmin` redirects to login when the session has no
bound account identifier; when the cached admin flag is true it passes
without querying the Credential Store; otherwise it re-queries the
store's admin flag — caching true into the session and passing when the
flag is true, and returning a 403 Forbidden terminal response (not a
redirect) when it is false. -/
theorem C2_requireAdmin_guard (users : List Account) (sess : Session) :
    (sess.userId = none → requireAdmin users sess = .redirectLogin) ∧
    (∀ uid, sess.userId = some uid → uid ≠ 0 → sess.isAdmin = true →
      requireAdmin users sess = .pass sess false) ∧
    (∀ uid u, sess.userId = some uid → uid ≠ 0 → sess.isAdmin = false →
      findUserById users uid = some u → u.is_admin = true →
      requireAdmin users sess = .pass { sess with isAdmin := true } true) ∧
    (∀ uid u, sess.userId = some uid → uid ≠ 0 → sess.isAdmin = false →
      findUserById users uid = some u → u.is_admin = false →
      requireAdmin users sess = .forbidden 403) := by
  refine ⟨?_, ?_, ?_, ?_⟩
  · intro h
    simp [requireAdmin, truthyId, h]
  · intro uid h hz ha
    simp [requireAdmin, truthyId, h, hz, ha]
  · intro uid u h hz ha hf hadm
    simp [requireAdmin, truthyId, h, hz, ha, hf, hadm]
  · intro uid u h hz ha hf hadm
    simp [requireAdmin, truthyId, h, hz, ha, hf, hadm]

/-- Witness for C2 on a concrete store and the four session shapes. -/
theorem C2_requireAdmin_guard_witness :
    requireAdmin [rootAcct, bobAcct]
        { userId := none, username := none, isAdmin := false } = .redirectLogin ∧
    requireAdmin [rootAcct, bobAcct]
        { userId := some 2, username := some "bob", isAdmin := true } =
      .pass { userId := some 2, username := some "bob", isAdmin := true } false ∧
    requireAdmin [rootAcct, bobAcct]
        { userId := some 7, username := some "root", isAdmin := false } =
      .pass { userId := some 7, username := some "root", isAdmin := true } true ∧
    requireAdmin [rootAcct, bobAcct]
        { userId := some 2, username := some "bob", isAdmin := false } =
      .forbidden 403 :=
  ⟨(C2_requireAdmin_guard _ _).1 rfl,
   (C2_requireAdmin_guard _ _).2.1 2 rfl (by decide) rfl,
   (C2_requireAdmin_guard _ _).2.2.1 7 rootAcct rfl (by decide) rfl (by decide) rfl,
   (C2_requireAdmin_guard _ _).2.2.2 2 bobAcct rfl (by decide) rfl (by decide) rfl⟩

/-- Claim C4: in the full variant's login, an unknown username and a
known username with a failing password comparison produce responses with
the same status code (401) and the same user-facing message. -/
theorem C4_login_error_indistinguishable
    (compare : String → String → Bool) (users : List Account)
    (u1 p1 u2 p2 : Option String) (a : Account)
    (h1u : truthy u1 = true) (h1p : truthy p1 = true)
    (h2u : truthy u2 = true) (h2p : truthy p2 = true)
    (hmiss : findUserByName users (u1.getD "") = none)
    (hhit : findUserByName users (u2.getD "") = some a)
    (hbad : compare (p2.getD "") a.password = false) :
    loginFull compare users u1 p1 =
      .render 401 "Invalid username or password." (u1.getD "") ∧
    loginFull compare users u2 p2 =
      .render 401 "Invalid username or password." (u2.getD "") := by
  constructor
  · simp [loginFull, h1u, h1p, hmiss]
  · simp [loginFull, h2u, h2p, hhit, hbad]

/-- Witness for C4: nonexistent "carol" versus "Alice" with a wrong
password against a concrete store. -/
theorem C4_login_error_indistinguishable_witness :
    loginFull demoCompare [aliceAcct] (some "carol") (some "whatever") =
      .render 401 "Invalid username or password." "carol" ∧
    loginFull demoCompare [aliceAcct] (some "Alice") (some "wrong") =
      .render 401 "Invalid username or password." "Alice" :=
  C4_login_error_indistinguishable demoCompare [aliceAcct]
    (some "carol") (some "whatever") (some "Alice") (some "wrong") aliceAcct
    (by decide) (by decide) (by decide) (by decide)
    (by decide) (by decide) (by decide)

/-- Claim C3 as stated is false on the full variant: with only "Alice"
registered, logging in as "Alice" reaches her account while logging in
as "alice" does not resolve any account — the exact-match lookup
distinguishes usernames that differ only in letter case. -/
theorem C3_counterexample :
    loginFull demoCompare [aliceAcct] (some "Alice") (some "pw") =
      .redirect "/" { userId := some 1, username := some "Alice", isAdmin := false } ∧
    loginFull demoCompare [aliceAcct] (some "alice") (some "pw") =
      .render 401 "Invalid username or password." "alice" := by
  constructor
  · decide
  · decide

/-- Claim C3 (amended): only the simplified variant's login lookup is
case-insensitive — two submitted usernames equal after trimming and
lowercasing yield identical login responses there; the full variant's
lookup is exact-match (see the counterexample). -/
theorem C3_loginSimple_case_insensitive
    (compare : String → String → Bool) (users : List Account)
    (u1 u2 : String) (p : Option String)
    (h : sqlLower (jsTrim u1) = sqlLower (jsTrim u2)) :
    loginSimple compare users (some u1) p = loginSimple compare users (some u2) p := by
  have hemp : (jsTrim u1 == "") = (jsTrim u2 == "") := by
    rcases eq_or_ne (jsTrim u1) "" with h1 | h1
    · have h2 : jsTrim u2 = "" := by
        rw [h1] at h
        exact sqlLower_eq_empty.mp (by rw [← h]; rfl)
      rw [h1, h2]
    · have h2 : jsTrim u2 ≠ "" := by
        intro he
        rw [he] at h
        exact h1 (sqlLower_eq_empty.mp (by rw [h]; rfl))
      simp [h1, h2]
  have hfind : findUserCI users (jsTrim u1) = findUserCI users (jsTrim u2) := by
    unfold findUserCI
    rw [h]
  simp only [loginSimple, Option.getD_some]
  rw [hemp, hfind]

/-- Witness for the amended C3: " Alice " and "ALICE" produce the same
response of the simplified login against a concrete store. -/
theorem C3_loginSimple_case_insensitive_witness :
    sqlLower (jsTrim " Alice ") = sqlLower (jsTrim "ALICE") ∧
    loginSimple demoCompare [aliceAcct] (some " Alice ") (some "pw") =
      loginSimple demoCompare [aliceAcct] (some "ALICE") (some "pw") :=
  ⟨by decide,
   C3_loginSimple_case_insensitive demoCompare [aliceAcct] " Alice " "ALICE"
     (some "pw") (by decide)⟩

/-- Signup body colliding with `aliceAcct` only up to letter case. -/
def aliceCaseBody : SignupBody :=
  { username := some "alice", password := some "password1",
    confirm_password := some "password1", first_name := none,
    last_name := none, city := none, state := none, country := none }

/-- Claim C1 as stated is false: with "Alice" already registered, the
full variant's signup as "alice" — a case-insensitive match of an
existing username — does not fail with a duplicate-username error; the
in-transaction duplicate lookup is exact-match, so the registration
succeeds and inserts new rows. -/
theorem C1_counterexample :
    sqlLower "alice" = sqlLower aliceAcct.username ∧
    (signupFull demoHash { users := [aliceAcct], person := [] } 2 20
        aliceCaseBody).1 =
      .success { userId := some 2, username := some "alice", isAdmin := false } := by
  constructor
  · decide
  · decide

/-- Claim C1 (amended): in the full variant, signup fails with
`DuplicateUsernameError` exactly when an *exact* (case-sensitive) match
of the submitted username already exists; the check runs inside the same
transaction as the `users` and `person` inserts, so on a duplicate the
transaction rolls back and neither row is persisted, and otherwise both
rows are inserted together. -/
theorem C1_signup_duplicate_transactional
    (hash : String → String) (db : DB) (nu np : Nat) (body : SignupBody)
    (hu : truthy body.username = true) (hp : truthy body.password = true)
    (hc : body.password = body.confirm_password)
    (hl : 8 ≤ (body.password.getD "").length) :
    ((∃ u ∈ db.users, u.username = body.username.getD "") →
      signupFull hash db nu np body =
        (.duplicateError 409 "An account with that username already exists.",
          db)) ∧
    ((∀ u ∈ db.users, u.username ≠ body.username.getD "") →
      signupFull hash db nu np body =
        (.success
            { userId := some nu, username := some (body.username.getD ""),
              isAdmin := false },
          { db with
              users := db.users ++
                [{ user_id := nu, username := body.username.getD "",
                   password := hash (body.password.getD ""),
                   is_admin := false }],
              person := db.person ++
                [{ person_id := np, user_id := nu,
                   first_name := orNull body.first_name,
                   last_name := orNull body.last_name,
                   city := orNull body.city, state := normTrim body.state,
                   country := normTrim body.country, preference_one := none,
                   preference_two := none, preference_three := none }] })) := by
  have hlen : ¬ (body.password.getD "").length < 8 := not_lt.mpr hl
  have hbeq : (body.password == body.confirm_password) = true := by
    rw [hc]
    exact beq_self_eq_true _
  constructor
  · rintro ⟨u, humem, huname⟩
    have hsome : (findUserByName db.users (body.username.getD "")).isSome := by
      rw [findUserByName, List.find?_isSome]
      exact ⟨u, humem, by simp [huname]⟩
    obtain ⟨w, hw⟩ := Option.isSome_iff_exists.mp hsome
    simp [signupFull, hu, hp, hbeq, hlen, hw]
  · intro hnone
    have hmiss : findUserByName db.users (body.username.getD "") = none := by
      rw [findUserByName, List.find?_eq_none]
      intro u humem
      simp [hnone u humem]
    simp [signupFull, hu, hp, hbeq, hlen, hmiss]

/-- Witness for the amended C1: an exact duplicate is rejected with the
store unchanged, and a fresh username inserts both rows. -/
theorem C1_signup_duplicate_transactional_witness :
    (signupFull demoHash { users := [aliceAcct], person := [alicePerson] } 2 20
        { aliceCaseBody with username := some "Alice" } =
      (.duplicateError 409 "An account with that username already exists.",
        { users := [aliceAcct], person := [alicePerson] })) ∧
    (signupFull demoHash { users := [aliceAcct], person := [alicePerson] } 2 20
        { aliceCaseBody with username := some "carol" } =
      (.success { userId := some 2, username := some "carol", isAdmin := false },
        { users := [aliceAcct,
            { user_id := 2, username := "carol",
              password := "hash:password1", is_admin := false }],
          person := [alicePerson,
            { person_id := 20, user_id := 2, first_name := none,
              last_name := none, city := none, state := none, country := none,
              preference_one := none, preference_two := none,
              preference_three := none }] })) :=
  ⟨(C1_signup_duplicate_transactional demoHash _ 2 20 _
      (by decide) (by decide) (by decide) (by decide)).1
      ⟨aliceAcct, by decide, by decide⟩,
   (C1_signup_duplicate_transactional demoHash _ 2 20 _
      (by decide) (by decide) (by decide) (by decide)).2
      (by decide)⟩

/-- Claim C5: a registration with a missing username or password, a
mismatched confirmation, or a too-short password (minimum 8 in the full
variant, 6 in the simplified variant) fails with a validation error and
leaves the persistent stores exactly as they were. -/
theorem C5_signup_validation_no_write :
    (∀ (hash : String → String) (db : DB) (nu np : Nat) (body : SignupBody),
      (truthy body.username = false ∨ truthy body.password = false ∨
        body.password ≠ body.confirm_password ∨
        (body.password.getD "").length < 8) →
      ∃ m, signupFull hash db nu np body = (.validationError 400 m, db)) ∧
    (∀ (hash : String → String) (users : List Account) (nu : Nat)
        (bu bp bc : Option String),
      (jsTrim (bu.getD "") = "" ∨ bp.getD "" = "" ∨
        bp.getD "" ≠ bc.getD "" ∨ (bp.getD "").length < 6) →
      ∃ m, signupSimple hash users nu bu bp bc =
        (.redirectWithFlash "/signup" m, users)) := by
  constructor
  · intro hash db nu np body h
    by_cases h1 : (!truthy body.username || !truthy body.password) = true
    · exact ⟨"Username and password are required.", by simp [signupFull, h1]⟩
    · have hu : truthy body.username = true := by
        cases hb : truthy body.username with
        | false => exact absurd (by simp [hb]) h1
        | true => rfl
      have hp : truthy body.password = true := by
        cases hb : truthy body.password with
        | false => exact absurd (by simp [hb]) h1
        | true => rfl
      by_cases h2 : body.password = body.confirm_password
      · have hbeq : (body.password == body.confirm_password) = true := by
          rw [h2]
          exact beq_self_eq_true _
        have hlen : (body.password.getD "").length < 8 := by
          rcases h with h | h | h | h
          · rw [hu] at h; cases h
          · rw [hp] at h; cases h
          · exact absurd h2 h
          · exact h
        exact ⟨"Password must be at least 8 characters.",
          by simp [signupFull, hu, hp, hbeq, hlen]⟩
      · have hbeq : (body.password == body.confirm_password) = false :=
          beq_eq_false_iff_ne.mpr h2
        exact ⟨"Passwords do not match.", by simp [signupFull, hu, hp, hbeq]⟩
  · intro hash users nu bu bp bc h
    by_cases h1 : (jsTrim (bu.getD "") == "" || bp.getD "" == "") = true
    · exact ⟨"Username and password are required.", by simp [signupSimple, h1]⟩
    · have hbu : ¬ jsTrim (bu.getD "") = "" := by
        intro he
        exact h1 (by simp [he])
      have hbp : ¬ bp.getD "" = "" := by
        intro he
        exact h1 (by simp [he])
      by_cases h2 : bp.getD "" = bc.getD ""
      · have hbeq : (bp.getD "" == bc.getD "") = true := by
          rw [h2]
          exact beq_self_eq_true _
        have hlen : (bp.getD "").length < 6 := by
          rcases h with h | h | h | h
          · exact absurd h hbu
          · exact absurd h hbp
          · exact absurd h2 h
          · exact h
        exact ⟨"Password must be at least 6 characters long.",
          by simp [signupSimple, hbu, hbp, hbeq, hlen]⟩
      · have hbeq : (bp.getD "" == bc.getD "") = false :=
          beq_eq_false_iff_ne.mpr h2
        exact ⟨"Passwords do not match.", by simp [signupSimple, hbu, hbp, hbeq]⟩

/-- Witness for C5: a too-short password in the full variant and a
mismatched confirmation in the simplified variant, both leaving the
stores untouched. -/
theorem C5_signup_validation_no_write_witness :
    (∃ m, signupFull demoHash dbTwo 3 30
        { aliceCaseBody with
            username := some "zoe"
            password := some "abc"
            confirm_password := some "abc" } =
      (.validationError 400 m, dbTwo)) ∧
    (∃ m, signupSimple demoHash [aliceAcct] 3
        (some "zoe") (some "longenough") (some "different") =
      (.redirectWithFlash "/signup" m, [aliceAcct])) :=
  ⟨C5_signup_validation_no_write.1 demoHash dbTwo 3 30 _
      (Or.inr (Or.inr (Or.inr (by decide)))),
   C5_signup_validation_no_write.2 demoHash [aliceAcct] 3 _ _ _
      (Or.inr (Or.inr (Or.inl (by decide))))⟩

/-- Claim C6: when the profile id resolves, admin delete removes the
Profile row and its Account row in one transaction — afterwards the
Profile lookup and the Account lookup both return not-found — and the
response is the same list redirect; when the profile id does not
resolve, the delete is a silent no-op: same redirect, stores unchanged.
(Atomicity is by construction: the transaction is a single step from
database to database, so no Account-without-Profile intermediate state
exists.) -/
theorem C6_adminDelete_idempotent (db : DB) (pid : Nat) :
    (∀ pRow, findPersonById db.person pid = some pRow →
      adminDelete db pid =
        ("/admin/users",
          { db with
              person := db.person.filter (fun p => !(p.person_id == pid)),
              users := db.users.filter (fun u => !(u.user_id == pRow.user_id)) }) ∧
      findPersonById (adminDelete db pid).2.person pid = none ∧
      findUserById (adminDelete db pid).2.users pRow.user_id = none) ∧
    (findPersonById db.person pid = none →
      adminDelete db pid = ("/admin/users", db)) := by
  constructor
  · intro pRow h
    refine ⟨by simp [adminDelete, h], ?_, ?_⟩
    · rw [adminDelete, h]
      exact find?_filter_not _ _
    · rw [adminDelete, h]
      exact find?_filter_not _ _
  · intro h
    simp [adminDelete, h]

/-- Witness for C6: deleting Alice's profile removes her account row and
profile row together; deleting an unknown profile id changes nothing. -/
theorem C6_adminDelete_idempotent_witness :
    adminDelete dbTwo 10 =
      ("/admin/users", { users := [bobAcct], person := [bobPerson] }) ∧
    findPersonById (adminDelete dbTwo 10).2.person 10 = none ∧
    adminDelete dbTwo 99 = ("/admin/users", dbTwo) :=
  ⟨((C6_adminDelete_idempotent dbTwo 10).1 alicePerson (by decide)).1.trans
      (by decide),
   ((C6_adminDelete_idempotent dbTwo 10).1 alicePerson (by decide)).2.1,
   (C6_adminDelete_idempotent dbTwo 99).2 (by decide)⟩

/-- Claim C9: for an authenticated account, saving a not-yet-saved
(account, url) inserts the row; saving the same (account, url) again —
with any title — fails with 409 Conflict and leaves the store unchanged
(the duplicate check runs before the insert); unsaving deletes the row;
resaving the same (account, url) afterwards succeeds again. -/
theorem C9_save_unsave_resave (posts : List NewsPost) (uid : Nat)
    (t t2 : String) (url : String)
    (hz : uid ≠ 0) (ht : t ≠ "") (ht2 : t2 ≠ "") (hurl : url ≠ "")
    (hfresh : ∀ r ∈ posts, ¬(r.user_id = uid ∧ r.url = url)) :
    saveArticle posts (some uid) (some t) (some url) =
      ({ status := 200, success := true,
         message := "Article saved successfully" },
        posts ++ [{ user_id := uid, title := t, url := url }]) ∧
    saveArticle (posts ++ [{ user_id := uid, title := t, url := url }])
        (some uid) (some t2) (some url) =
      ({ status := 409, success := false, message := "Article already saved" },
        posts ++ [{ user_id := uid, title := t, url := url }]) ∧
    unsaveArticle (posts ++ [{ user_id := uid, title := t, url := url }])
        (some uid) (some url) =
      ({ status := 200, success := true,
         message := "Article removed successfully" }, posts) ∧
    (saveArticle posts (some uid) (some t2) (some url)).1 =
      { status := 200, success := true,
        message := "Article saved successfully" } := by
  have hpred : ∀ r ∈ posts, ¬((r.user_id == uid && r.url == url) = true) := by
    intro r hr hcontra
    simp only [Bool.and_eq_true, beq_iff_eq] at hcontra
    exact hfresh r hr hcontra
  have hmiss : posts.find? (fun r => r.user_id == uid && r.url == url) = none :=
    List.find?_eq_none.mpr hpred
  have hrow : ((⟨uid, t, url⟩ : NewsPost).user_id == uid &&
      (⟨uid, t, url⟩ : NewsPost).url == url) = true := by
    simp
  have hsingle : List.find? (fun r => r.user_id == uid && r.url == url)
      [(⟨uid, t, url⟩ : NewsPost)] = some (⟨uid, t, url⟩ : NewsPost) :=
    List.find?_cons_of_pos [] hrow
  have hhit : (posts ++ [(⟨uid, t, url⟩ : NewsPost)]).find?
      (fun r => r.user_id == uid && r.url == url) =
      some (⟨uid, t, url⟩ : NewsPost) := by
    rw [List.find?_append, hmiss, hsingle]
    rfl
  have hkeep : posts.filter
      (fun r => !(r.user_id == uid && r.url == url)) = posts := by
    apply List.filter_eq_self.mpr
    intro r hr
    cases hb : (r.user_id == uid && r.url == url) with
    | false => rfl
    | true => exact absurd hb (hpred r hr)
  have hfilter : (posts ++ [(⟨uid, t, url⟩ : NewsPost)]).filter
      (fun r => !(r.user_id == uid && r.url == url)) = posts := by
    rw [List.filter_append, hkeep, List.filter_cons]
    simp [hrow]
  refine ⟨?_, ?_, ?_, ?_⟩
  · simp [saveArticle, truthyId, truthy, hz, ht, hurl, hmiss]
  · simp [saveArticle, truthyId, truthy, hz, ht2, hurl, hhit, hmiss]
  · have c1 : ¬((!truthyId (some uid)) = true) := by simp [truthyId, hz]
    have c2 : ¬((!truthy (some url)) = true) := by simp [truthy, hurl]
    unfold unsaveArticle
    rw [if_neg c1, if_neg c2]
    show (if (((posts ++ [(⟨uid, t, url⟩ : NewsPost)]).filter
          (fun r => !(r.user_id == uid && r.url == url))).length ==
          (posts ++ [(⟨uid, t, url⟩ : NewsPost)]).length) = true
        then _ else _) = _
    rw [hfilter, if_neg (by simp)]
    simp only [Option.getD_some]
    rw [hfilter]
  · simp [saveArticle, truthyId, truthy, hz, ht2, hurl, hmiss]

/-- Witness for C9 on a concrete account and article. -/
theorem C9_save_unsave_resave_witness :
    saveArticle [] (some 1) (some "Headline") (some "https://x/a") =
      ({ status := 200, success := true,
         message := "Article saved successfully" },
        [{ user_id := 1, title := "Headline", url := "https://x/a" }]) ∧
    saveArticle [{ user_id := 1, title := "Headline", url := "https://x/a" }]
        (some 1) (some "Other") (some "https://x/a") =
      ({ status := 409, success := false, message := "Article already saved" },
        [{ user_id := 1, title := "Headline", url := "https://x/a" }]) ∧
    unsaveArticle [{ user_id := 1, title := "Headline", url := "https://x/a" }]
        (some 1) (some "https://x/a") =
      ({ status := 200, success := true,
         message := "Article removed successfully" }, []) ∧
    (saveArticle [] (some 1) (some "Other") (some "https://x/a")).1 =
      { status := 200, success := true,
        message := "Article saved successfully" } :=
  C9_save_unsave_resave [] 1 "Headline" "Other" "https://x/a"
    (by decide) (by decide) (by decide) (by decide)
    (by intro r hr; cases hr)

/-- Characterisation of `adminUpdate` once validation has passed and the
person row resolves to a joined account: the outcome is decided by the
self-excluding duplicate check, and on success exactly the target
account row and the target person row are rewritten. -/
theorem adminUpdate_resolved (hash : String → String) (db : DB) (pid : Nat)
    (body : UpdateBody) (pRow : Person) (u : Account)
    (hv1 : truthy body.username = true)
    (hv2 : (truthy body.password &&
      decide ((body.password.getD "").length < 8)) = false)
    (hv3 : (truthy body.password &&
      !(body.password == body.confirm_password)) = false)
    (hfind : findPersonById db.person pid = some pRow)
    (hjoin : findUserById db.users pRow.user_id = some u) :
    adminUpdate hash db pid body =
      if updateDupCheck db.users (body.username.getD "") (some u.user_id) then
        (.duplicateError 400 "That username is already taken.", db)
      else
        (.successRedirect "/admin/users",
          { db with
              users := db.users.map (fun v =>
                if v.user_id == u.user_id then applyUserUpdate hash body v
                else v),
              person := db.person.map (fun p =>
                if p.person_id == pid then applyPersonUpdate body p
                else p) }) := by
  have c1 : (!truthy body.username) = false := by rw [hv1]; rfl
  simp only [adminUpdate, c1, hv2, hv3, Bool.false_eq_true, if_false, hfind,
    hjoin]
  rfl

/-- Claim C7: the admin update's uniqueness check excludes the account
being edited — given a resolving target and passing validation, the
update fails with a duplicate-username error exactly when a *different*
account already holds the submitted username, and when every holder of
that username is the target itself (in particular when the target's own
current username is resubmitted) the update succeeds. -/
theorem C7_adminUpdate_selfcollision
    (hash : String → String) (db : DB) (pid : Nat) (body : UpdateBody)
    (pRow : Person) (u : Account)
    (hv1 : truthy body.username = true)
    (hv2 : (truthy body.password &&
      decide ((body.password.getD "").length < 8)) = false)
    (hv3 : (truthy body.password &&
      !(body.password == body.confirm_password)) = false)
    (hfind : findPersonById db.person pid = some pRow)
    (hjoin : findUserById db.users pRow.user_id = some u) :
    ((adminUpdate hash db pid body).1 =
        .duplicateError 400 "That username is already taken." ↔
      ∃ v ∈ db.users, v.username = body.username.getD "" ∧
        v.user_id ≠ u.user_id) ∧
    ((∀ v ∈ db.users, v.username = body.username.getD "" →
        v.user_id = u.user_id) →
      (adminUpdate hash db pid body).1 = .successRedirect "/admin/users") := by
  have hres := adminUpdate_resolved hash db pid body pRow u hv1 hv2 hv3 hfind hjoin
  have hany : updateDupCheck db.users (body.username.getD "")
      (some u.user_id) = true ↔
      ∃ v ∈ db.users, v.username = body.username.getD "" ∧
        v.user_id ≠ u.user_id := by
    rw [updateDupCheck, List.any_eq_true]
    constructor
    · rintro ⟨v, hv, hvp⟩
      simp only [Bool.and_eq_true, beq_iff_eq, Bool.not_eq_true',
        beq_eq_false_iff_ne] at hvp
      exact ⟨v, hv, hvp⟩
    · rintro ⟨v, hv, hn, hne⟩
      refine ⟨v, hv, ?_⟩
      simp [hn, hne]
  constructor
  · constructor
    · intro hdup
      by_contra hno
      have hfalse : updateDupCheck db.users (body.username.getD "")
          (some u.user_id) = false := by
        cases hb : updateDupCheck db.users (body.username.getD "")
            (some u.user_id) with
        | false => rfl
        | true => exact absurd (hany.mp hb) hno
      rw [hres, hfalse] at hdup
      cases hdup
    · intro hex
      rw [hres, hany.mpr hex]
      rfl
  · intro hall
    have hfalse : updateDupCheck db.users (body.username.getD "")
        (some u.user_id) = false := by
      cases hb : updateDupCheck db.users (body.username.getD "")
          (some u.user_id) with
      | false => rfl
      | true =>
          obtain ⟨v, hv, hn, hne⟩ := hany.mp hb
          exact absurd (hall v hv hn) hne
    rw [hres, hfalse]
    rfl

/-- Update body reusing Alice's own username, with no new password. -/
def updBodySelf : UpdateBody :=
  { username := some "Alice", password := none, confirm_password := none,
    first_name := some "Alicia", last_name := none, city := some "",
    state := none, country := some "USA", preference_one := some "sports",
    preference_two := none, preference_three := none }

/-- Witness for C7: renaming Alice to "bob" collides with the other
account, while resubmitting her own username "Alice" succeeds. -/
theorem C7_adminUpdate_selfcollision_witness :
    (adminUpdate demoHash dbTwo 10
        { updBodySelf with username := some "bob" }).1 =
      .duplicateError 400 "That username is already taken." ∧
    (adminUpdate demoHash dbTwo 10 updBodySelf).1 =
      .successRedirect "/admin/users" :=
  ⟨(C7_adminUpdate_selfcollision demoHash dbTwo 10 _ alicePerson aliceAcct
      (by decide) (by decide) (by decide) (by decide) (by decide)).1.mpr
      ⟨bobAcct, by decide, by decide, by decide⟩,
   (C7_adminUpdate_selfcollision demoHash dbTwo 10 updBodySelf alicePerson
      aliceAcct (by decide) (by decide) (by decide) (by decide)
      (by decide)).2 (by decide)⟩

/-- Claim C8: on a successful admin update, when no new password (or an
empty one) was submitted every stored password hash — in particular the
target account's — is exactly what it was before the update; the hash is
replaced, by the hash of the submitted password, only when a non-empty
new password was submitted. -/
theorem C8_adminUpdate_password_frame
    (hash : String → String) (db : DB) (pid : Nat) (body : UpdateBody)
    (pRow : Person) (u : Account)
    (hv1 : truthy body.username = true)
    (hv2 : (truthy body.password &&
      decide ((body.password.getD "").length < 8)) = false)
    (hv3 : (truthy body.password &&
      !(body.password == body.confirm_password)) = false)
    (hfind : findPersonById db.person pid = some pRow)
    (hjoin : findUserById db.users pRow.user_id = some u)
    (hnodup : updateDupCheck db.users (body.username.getD "")
      (some u.user_id) = false) :
    ((adminUpdate hash db pid body).1 = .successRedirect "/admin/users") ∧
    (truthy body.password = false →
      (adminUpdate hash db pid body).2.users.map (fun v => v.password) =
        db.users.map (fun v => v.password)) ∧
    (truthy body.password = true →
      findUserById (adminUpdate hash db pid body).2.users u.user_id =
        some (applyUserUpdate hash body u) ∧
      (applyUserUpdate hash body u).password =
        hash (body.password.getD "")) := by
  have hres := adminUpdate_resolved hash db pid body pRow u hv1 hv2 hv3 hfind hjoin
  rw [hres, hnodup]
  have huid : u.user_id = pRow.user_id := by
    have := List.find?_some hjoin
    exact beq_iff_eq.mp this
  refine ⟨rfl, ?_, ?_⟩
  · intro hp
    show (db.users.map (fun v =>
        if v.user_id == u.user_id then applyUserUpdate hash body v
        else v)).map (fun v => v.password) = db.users.map (fun v => v.password)
    exact map_proj_ite _ _ _
      (fun a => by simp [applyUserUpdate, hp]) db.users
  · intro hp
    constructor
    · show (db.users.map (fun v =>
          if v.user_id == u.user_id then applyUserUpdate hash body v
          else v)).find? (fun v => v.user_id == u.user_id) =
        some (applyUserUpdate hash body u)
      rw [find?_map_ite (fun v => v.user_id == u.user_id)
          (applyUserUpdate hash body) (fun a => rfl) db.users]
      have hfu : db.users.find? (fun v => v.user_id == u.user_id) = some u := by
        rw [huid]
        exact hjoin
      rw [hfu]
      rfl
    · show (if truthy body.password then hash (body.password.getD "")
        else u.password) = hash (body.password.getD "")
      rw [hp]
      rfl

/-- Witness for C8: updating Alice without a password preserves every
stored hash; updating her with a new password stores its hash. -/
theorem C8_adminUpdate_password_frame_witness :
    ((adminUpdate demoHash dbTwo 10 updBodySelf).2.users.map
        (fun v => v.password) = dbTwo.users.map (fun v => v.password)) ∧
    findUserById (adminUpdate demoHash dbTwo 10
        { updBodySelf with
            password := some "newpassword"
            confirm_password := some "newpassword" }).2.users 1 =
      some { user_id := 1, username := "Alice",
             password := "hash:newpassword", is_admin := false } :=
  ⟨(C8_adminUpdate_password_frame demoHash dbTwo 10 updBodySelf alicePerson
      aliceAcct (by decide) (by decide) (by decide) (by decide) (by decide)
      (by decide)).2.1 (by decide),
   ((C8_adminUpdate_password_frame demoHash dbTwo 10
      { updBodySelf with
          password := some "newpassword"
          confirm_password := some "newpassword" } alicePerson aliceAcct
      (by decide) (by decide) (by decide) (by decide) (by decide)
      (by decide)).2.2 (by decide)).1.trans (by decide)⟩

/-- Claim C10: a successful admin update overwrites every profile column
of the target person row from the submitted fields via `field || null` —
the row keeps its ids, and a profile attribute that was not submitted
(or was submitted empty) is stored as NULL rather than left at its
previous value. -/
theorem C10_adminUpdate_profile_overwrite
    (hash : String → String) (db : DB) (pid : Nat) (body : UpdateBody)
    (pRow : Person) (u : Account)
    (hv1 : truthy body.username = true)
    (hv2 : (truthy body.password &&
      decide ((body.password.getD "").length < 8)) = false)
    (hv3 : (truthy body.password &&
      !(body.password == body.confirm_password)) = false)
    (hfind : findPersonById db.person pid = some pRow)
    (hjoin : findUserById db.users pRow.user_id = some u)
    (hnodup : updateDupCheck db.users (body.username.getD "")
      (some u.user_id) = false) :
    findPersonById (adminUpdate hash db pid body).2.person pid =
      some { person_id := pRow.person_id, user_id := pRow.user_id,
             first_name := orNull body.first_name,
             last_name := orNull body.last_name,
             city := orNull body.city,
             state := orNull body.state,
             country := orNull body.country,
             preference_one := orNull body.preference_one,
             preference_two := orNull body.preference_two,
             preference_three := orNull body.preference_three } ∧
    (∀ o : Option String, truthy o = false → orNull o = none) := by
  have hres := adminUpdate_resolved hash db pid body pRow u hv1 hv2 hv3 hfind hjoin
  rw [hres, hnodup]
  constructor
  · show (db.person.map (fun p =>
        if p.person_id == pid then applyPersonUpdate body p
        else p)).find? (fun p => p.person_id == pid) = _
    rw [find?_map_ite (fun p => p.person_id == pid)
        (applyPersonUpdate body) (fun a => rfl) db.person]
    rw [show db.person.find? (fun p => p.person_id == pid) = some pRow
      from hfind]
    rfl
  · intro o ho
    rw [orNull, if_neg]
    rw [ho]
    exact Bool.false_ne_true

/-- Witness for C10: updating Alice's profile with a body that omits her
previously-set last name, state and city (empty) erases them to NULL
while storing the submitted first name, country and preference. -/
theorem C10_adminUpdate_profile_overwrite_witness :
    findPersonById (adminUpdate demoHash dbTwo 10 updBodySelf).2.person 10 =
      some { person_id := 10, user_id := 1, first_name := some "Alicia",
             last_name := none, city := none, state := none,
             country := some "USA", preference_one := some "sports",
             preference_two := none, preference_three := none } :=
  ((C10_adminUpdate_profile_overwrite demoHash dbTwo 10 updBodySelf
      alicePerson aliceAcct (by decide) (by decide) (by decide) (by decide)
      (by decide) (by decide)).1).trans (by decide)

end NewsApp
